import Mathlib

/-!
Verification of the Smart AC prediction core: the local heuristic engine
(`calculateIdealTemperature` in `src/frontend/src/utils/predictions.ts`),
the feature normalization performed by `handlePredict` in
`src/frontend/src/App.tsx`, and the remote-prediction client
(`getIdealTemperaturePrediction` in `src/frontend/src/services/api.ts`).

Numbers are embedded as rationals: the JavaScript arithmetic involved —
addition, subtraction, multiplication by decimal literals, `Math.min`,
`%`, `Math.floor`, `Math.ceil`, comparisons — is exact on the decimal
values appearing here.  JavaScript's `%` operator is the truncated
remainder (its sign follows the dividend); it is modelled explicitly by
`jsRem`.  Thrown JavaScript values are modelled by `Thrown`, keeping the
one distinction the client code inspects: whether the value is an
`instanceof Error` (and if so its `message`).
-/

/-- The raw UI-facing record, `EnvironmentalData` from
`src/frontend/src/types/index.ts`.  Numeric fields are rationals; the two
category tags are strings (the TypeScript field type is `string`). -/
structure EnvironmentalData where
  indoorTemp : ℚ
  outdoorTemp : ℚ
  humidity : ℚ
  occupancy : ℚ
  weatherCondition : String
  timeOfDay : String
  sunlightIntensity : ℚ
  roomSize : ℚ
  windowOpen : Bool
deriving DecidableEq, Repr

/-- Truncation toward zero of a rational, the behaviour of JavaScript's
number-to-integer truncation used by its `%` operator. -/
def ratTrunc (x : ℚ) : ℤ :=
  if 0 ≤ x then ⌊x⌋ else ⌈x⌉

/-- JavaScript's `%` operator on numbers: the remainder after truncated
division, so the result carries the sign of the dividend. -/
def jsRem (x y : ℚ) : ℚ :=
  x - y * (ratTrunc (x / y) : ℚ)

/-- The value accumulated in the local variable `idealTemp` of
`calculateIdealTemperature` (predictions.ts) just before the final two
rounding lines, translated step by step from the source: base 24,
outdoor drift, humidity branches, capped occupancy adjustment, weather
switch, time-of-day switch, sunlight adjustment, room-size bonus, window
branch. -/
def preRoundIdeal (data : EnvironmentalData) : ℚ :=
  let idealTemp : ℚ := 24
  let outdoorFactor := (data.outdoorTemp - 24) * 0.1
  let idealTemp := idealTemp + outdoorFactor
  let idealTemp :=
    if data.humidity > 70 then idealTemp - 1
    else if data.humidity < 30 then idealTemp + 0.5
    else idealTemp
  let occupancyAdjustment := min (data.occupancy * 0.2) 2
  let idealTemp := idealTemp - occupancyAdjustment
  let idealTemp :=
    if data.weatherCondition = "sunny" then idealTemp - 0.5
    else if data.weatherCondition = "rainy" ∨ data.weatherCondition = "cloudy" then
      idealTemp + 0.5
    else if data.weatherCondition = "snowy" ∨ data.weatherCondition = "stormy" then
      idealTemp + 1
    else idealTemp
  let idealTemp :=
    if data.timeOfDay = "morning" then idealTemp + 0.5
    else if data.timeOfDay = "afternoon" then idealTemp - 0.5
    else if data.timeOfDay = "night" then idealTemp + 1
    else idealTemp
  let sunlightAdjustment := data.sunlightIntensity / 10 * 1.5
  let idealTemp := idealTemp - sunlightAdjustment
  let idealTemp := if data.roomSize > 50 then idealTemp + 0.5 else idealTemp
  let idealTemp :=
    if data.windowOpen then
      if data.outdoorTemp > data.indoorTemp then idealTemp - 1 else idealTemp + 0.5
    else idealTemp
  idealTemp

/-- The final two lines of `calculateIdealTemperature`:
`const decimal = idealTemp % 1;`
`return decimal < 0.5 ? Math.floor(idealTemp) : Math.ceil(idealTemp);`. -/
def roundJs (idealTemp : ℚ) : ℚ :=
  let decimal := jsRem idealTemp 1
  if decimal < 0.5 then (⌊idealTemp⌋ : ℚ) else (⌈idealTemp⌉ : ℚ)

/-- `calculateIdealTemperature` from predictions.ts: the adjustment
pipeline followed by the rounding of its last two lines. -/
def calculateIdealTemperature (data : EnvironmentalData) : ℚ :=
  roundJs (preRoundIdeal data)

/-- `initialEnvironmentalData` from the constants module. -/
def initialEnvironmentalData : EnvironmentalData :=
  { indoorTemp := 26
    outdoorTemp := 30
    humidity := 60
    occupancy := 2
    weatherCondition := "sunny"
    timeOfDay := "afternoon"
    sunlightIntensity := 7
    roomSize := 25
    windowOpen := false }

/-- The `Option` record of the constants module (`value` is the tag
stored in the state, `label` the human-readable text).  Renamed to avoid
clashing with Lean's `Option`. -/
structure SelectOption where
  value : String
  label : String
deriving DecidableEq, Repr

/-- `weatherOptions` from the constants module. -/
def weatherOptions : List SelectOption :=
  [ { value := "sunny", label := "Sunny" }
  , { value := "partlyCloudy", label := "Partly Cloudy" }
  , { value := "cloudy", label := "Cloudy" }
  , { value := "rainy", label := "Rainy" }
  , { value := "stormy", label := "Stormy" }
  , { value := "snowy", label := "Snowy" }
  , { value := "windy", label := "Windy" }
  , { value := "foggy", label := "Foggy" } ]

/-- `timeOptions` from the constants module. -/
def timeOptions : List SelectOption :=
  [ { value := "morning", label := "Morning (6AM-12PM)" }
  , { value := "afternoon", label := "Afternoon (12PM-5PM)" }
  , { value := "evening", label := "Evening (5PM-10PM)" }
  , { value := "night", label := "Night (10PM-6AM)" } ]

/-- The weather-mapping block of `handlePredict` (App.tsx): look the tag
up in `weatherOptions` (`Array.prototype.find`); the result starts as the
default `Cloudy` and is reassigned only inside the lookup-success branch,
first checking membership of the label in the five canonical categories,
then the two explicit remappings. -/
def mapWeatherCondition (weatherCondition : String) : String :=
  match weatherOptions.find? (fun opt => opt.value == weatherCondition) with
  | none => "Cloudy"
  | some selectedWeatherOption =>
    let label := selectedWeatherOption.label
    if ["Sunny", "Cloudy", "Rainy", "Snowy", "Foggy"].contains label then label
    else if label = "Partly Cloudy" ∨ label = "Windy" then "Cloudy"
    else if label = "Stormy" then "Rainy"
    else "Cloudy"

/-- JavaScript `label.split(' ')[0]` as used in `handlePredict`: the
first field of splitting on the single-space separator, i.e. the longest
prefix of the string containing no space (empty when the string starts
with a space, the whole string when it has none). -/
def splitFirst (label : String) : String :=
  String.mk (label.data.takeWhile (fun c => c ≠ ' '))

/-- The time-of-day-mapping block of `handlePredict` (App.tsx): look the
tag up in `timeOptions`; the result starts as the default `Afternoon` and
is reassigned, inside the lookup-success branch, only when the first word
of the label is one of the four canonical categories. -/
def mapTimeOfDay (timeOfDay : String) : String :=
  match timeOptions.find? (fun opt => opt.value == timeOfDay) with
  | none => "Afternoon"
  | some selectedTimeOption =>
    let labelPart := splitFirst selectedTimeOption.label
    if ["Morning", "Afternoon", "Evening", "Night"].contains labelPart then labelPart
    else "Afternoon"

/-- The room-size bucketing block of `handlePredict` (App.tsx). -/
def mapRoomSize (roomSize : ℚ) : String :=
  if roomSize < 15 then "Small"
  else if roomSize < 30 then "Medium"
  else "Large"

/-- A thrown JavaScript value as the client code discriminates it with
`instanceof Error`: either an `Error` object carrying a `message`, or any
non-`Error` thrown value. -/
inductive Thrown where
  | err (message : String)
  | other
deriving DecidableEq, Repr

/-- The fields of a parsed `/predict` response body that the client
reads: `error` (the error shape) and `predicted_ideal_temperature` (the
success shape); a field that is absent (JavaScript `undefined`) is
`none`. -/
structure ParsedJson where
  error : Option String
  predicted_ideal_temperature : Option ℚ
deriving DecidableEq, Repr

/-- A settled `fetch` of `POST /predict` as observed by the client code:
either the fetch promise itself rejected (network failure — per web
semantics a `TypeError`, an `Error` instance), or a response arrived with
its `ok` flag and `status`, together with the outcome of
`await response.json()`: parsed fields, or the value thrown by the JSON
parser. -/
inductive FetchOutcome where
  | reject (thrown : Thrown)
  | response (ok : Bool) (status : Nat) (json : Except Thrown ParsedJson)

/-- A JSON parse failure from `response.json()`: per JavaScript/web
semantics the promise rejects with a `SyntaxError` — an instance of
`Error` — carrying the parser's own message. -/
def parseFailure (message : String) : Thrown :=
  Thrown.err message

/-- JavaScript `a || b` on a possibly-absent string `a`: `b` when `a` is
`undefined` or the empty string (both falsy), else `a`. -/
def jsOrElse (a : Option String) (b : String) : String :=
  match a with
  | none => b
  | some s => if s = "" then b else s

/-- The generic message of the final `throw new Error(...)` in api.ts. -/
def unknownErrorMessage : String :=
  "An unknown error occurred while fetching prediction."

/-- `getIdealTemperaturePrediction` from api.ts, as a function of the
settled fetch outcome.  The `try` block: on a non-`ok` response, parse
the body as the error shape and throw `new Error(errorData.error ||
tagged status message)` (a parse failure there propagates the thrown
value); on an `ok` response return the parsed body (a parse failure
propagates the thrown value).  The `catch` block: an `Error` instance is
rethrown as is (its message is what the caller sees); any other thrown
value is replaced by the generic unknown-error message. -/
def getIdealTemperaturePrediction (outcome : FetchOutcome) : Except String ParsedJson :=
  let tryBlock : Except Thrown ParsedJson :=
    match outcome with
    | FetchOutcome.reject thrown => Except.error thrown
    | FetchOutcome.response ok status json =>
      if ok then json
      else
        match json with
        | Except.error thrown => Except.error thrown
        | Except.ok errorData =>
          Except.error (Thrown.err
            (jsOrElse errorData.error ("API request failed with status " ++ toString status)))
  match tryBlock with
  | Except.ok responseData => Except.ok responseData
  | Except.error (Thrown.err message) => Except.error message
  | Except.error Thrown.other => Except.error unknownErrorMessage

/-- The pieces of the `App` component state that `handlePredict` writes:
`predictedTemperature`, `isLoading` and `error`. -/
structure AppState where
  predictedTemperature : Option ℚ
  isLoading : Bool
  error : Option String
deriving DecidableEq, Repr

/-- The opening lines of `handlePredict` (App.tsx), run before the remote
call is issued: `setIsLoading(true); setError(null);
setPredictedTemperature(null)`. -/
def handlePredictStart (s : AppState) : AppState :=
  { s with isLoading := true, error := none, predictedTemperature := none }

/-- `handlePredict` (App.tsx) as a state transformer, parametrised by the
settled result of the awaited `getIdealTemperaturePrediction` call: the
opening `setIsLoading(true)` / clearing lines, then the `try` arm storing
the prediction on success, the `catch` arm storing
`err.message || 'Failed to get prediction. Please try again.'` on
failure, and the `finally` arm running `setIsLoading(false)` on both
paths. -/
def handlePredict (s : AppState) (callResult : Except String ParsedJson) : AppState :=
  let s := handlePredictStart s
  match callResult with
  | Except.ok response =>
    { s with predictedTemperature := response.predicted_ideal_temperature, isLoading := false }
  | Except.error err =>
    { s with error := some (jsOrElse (some err) "Failed to get prediction. Please try again."),
             isLoading := false }

/-- C1: on the documented end-to-end scenario input (which is exactly
`initialEnvironmentalData`), the adjustment pipeline yields 22.15
(base 24, +0.6 outdoor drift, no humidity change, -0.4 occupancy,
-0.5 sunny, -0.5 afternoon, -1.05 sunlight, no room-size or window
change) and the rounding takes the floor branch, so
`calculateIdealTemperature` returns exactly 22. -/
theorem scenario1_initial_data :
    preRoundIdeal initialEnvironmentalData = 22.15 ∧
    calculateIdealTemperature initialEnvironmentalData = (⌊(22.15 : ℚ)⌋ : ℚ) ∧
    calculateIdealTemperature initialEnvironmentalData = 22 := by
  refine ⟨?_, ?_, ?_⟩
  · simp [preRoundIdeal, initialEnvironmentalData]
    norm_num
  · simp [calculateIdealTemperature, preRoundIdeal, roundJs, jsRem, ratTrunc,
      initialEnvironmentalData]
    norm_num
  · simp [calculateIdealTemperature, preRoundIdeal, roundJs, jsRem, ratTrunc,
      initialEnvironmentalData]
    norm_num

/-- C2: the final rounding step computes `decimal = ideal % 1` and
returns `Math.floor ideal` when `decimal < 0.5`, else `Math.ceil ideal`;
consequently every state whose pre-rounding ideal is exactly 24.5 rounds
up to 25 (the ceil branch, since 0.5 is not < 0.5) and every state whose
pre-rounding ideal is 24.49999 rounds down to 24 (the floor branch). -/
theorem rounding_rule :
    (∀ x : ℚ, roundJs x = if jsRem x 1 < 0.5 then (⌊x⌋ : ℚ) else (⌈x⌉ : ℚ)) ∧
    (∀ data : EnvironmentalData, preRoundIdeal data = 24.5 →
      calculateIdealTemperature data = 25) ∧
    (∀ data : EnvironmentalData, preRoundIdeal data = 24.49999 →
      calculateIdealTemperature data = 24) := by
  refine ⟨fun x => rfl, fun data h => ?_, fun data h => ?_⟩
  · simp [calculateIdealTemperature, h, roundJs, jsRem, ratTrunc]
    norm_num
    rw [show ⌈(49 / 2 : ℚ)⌉ = (25 : ℤ) from Int.ceil_eq_iff.mpr (by norm_num)]
    norm_num
  · simp [calculateIdealTemperature, h, roundJs, jsRem, ratTrunc]
    norm_num

/-- Witness for C2: one concrete state reaching pre-rounding ideal
exactly 24.5 (outdoor 29 gives drift +0.5, all other adjustments zero)
rounds to 25, and its variant with outdoor 28.9999 (pre-rounding ideal
24.49999) rounds to 24. -/
theorem rounding_rule_witness :
    calculateIdealTemperature
        { indoorTemp := 25, outdoorTemp := 29, humidity := 60, occupancy := 0,
          weatherCondition := "foggy", timeOfDay := "evening", sunlightIntensity := 0,
          roomSize := 10, windowOpen := false } = 25 ∧
    calculateIdealTemperature
        { indoorTemp := 25, outdoorTemp := 28.9999, humidity := 60, occupancy := 0,
          weatherCondition := "foggy", timeOfDay := "evening", sunlightIntensity := 0,
          roomSize := 10, windowOpen := false } = 24 := by
  constructor
  · refine rounding_rule.2.1 _ ?_
    simp [preRoundIdeal]
    norm_num
  · refine rounding_rule.2.2 _ ?_
    simp [preRoundIdeal]
    norm_num

/-- C6: the heuristic engine is total on every environment record with
finite (rational) numeric fields and arbitrary weather and time tags —
it always returns a number, and that number is an integer (the value of
the floor or ceil branch), hence in particular finite and well-defined. -/
theorem calculateIdealTemperature_total (data : EnvironmentalData) :
    ∃ z : ℤ, calculateIdealTemperature data = (z : ℚ) := by
  unfold calculateIdealTemperature roundJs
  by_cases h : jsRem (preRoundIdeal data) 1 < 0.5
  · exact ⟨⌊preRoundIdeal data⌋, by simp [h]⟩
  · exact ⟨⌈preRoundIdeal data⌉, by simp [h]⟩

/-- C7: the room-size bucketing maps any size below 15 to Small, sizes
in [15, 30) to Medium and sizes of 30 and above to Large; in particular
14.999 gives Small, 15 gives Medium, 29.999 gives Medium and 30 gives
Large. -/
theorem mapRoomSize_bucketing :
    (∀ roomSize : ℚ, roomSize < 15 → mapRoomSize roomSize = "Small") ∧
    (∀ roomSize : ℚ, 15 ≤ roomSize → roomSize < 30 → mapRoomSize roomSize = "Medium") ∧
    (∀ roomSize : ℚ, 30 ≤ roomSize → mapRoomSize roomSize = "Large") ∧
    mapRoomSize 14.999 = "Small" ∧ mapRoomSize 15 = "Medium" ∧
    mapRoomSize 29.999 = "Medium" ∧ mapRoomSize 30 = "Large" := by
  refine ⟨fun r h => ?_, fun r h1 h2 => ?_, fun r h => ?_, ?_, ?_, ?_, ?_⟩
  · simp [mapRoomSize, h]
  · simp [mapRoomSize, not_lt.mpr h1, h2]
  · have h15 : ¬ r < 15 := not_lt.mpr (by linarith)
    have h30 : ¬ r < 30 := not_lt.mpr h
    simp [mapRoomSize, h15, h30]
  · norm_num [mapRoomSize]
  · norm_num [mapRoomSize]
  · norm_num [mapRoomSize]
  · norm_num [mapRoomSize]

/-- Witness for C7: the three bucket arms applied at the concrete sizes
10, 20 and 40. -/
theorem mapRoomSize_bucketing_witness :
    mapRoomSize 10 = "Small" ∧ mapRoomSize 20 = "Medium" ∧ mapRoomSize 40 = "Large" :=
  ⟨mapRoomSize_bucketing.1 10 (by norm_num),
   mapRoomSize_bucketing.2.1 20 (by norm_num) (by norm_num),
   mapRoomSize_bucketing.2.2.1 40 (by norm_num)⟩

/-- C9: the busy flag has guaranteed-release semantics — the opening
lines of the predict action set `isLoading` to true before the remote
call is issued, and whatever the settled outcome of the call (success or
failure), the state after the action has `isLoading` false. -/
theorem busy_flag_guaranteed_release (s : AppState) (callResult : Except String ParsedJson) :
    (handlePredictStart s).isLoading = true ∧
    (handlePredict s callResult).isLoading = false := by
  constructor
  · rfl
  · cases callResult <;> rfl

/-- C10: with the window closed the heuristic result does not depend on
the indoor temperature — replacing `indoorTemp` by any value leaves the
output unchanged — and with the window open the indoor temperature
influences the result only through the outdoor-versus-indoor comparison:
two indoor temperatures on the same side of the outdoor temperature give
the same output. -/
theorem indoorTemp_noninterference :
    (∀ (data : EnvironmentalData) (t : ℚ), data.windowOpen = false →
      calculateIdealTemperature { data with indoorTemp := t } =
        calculateIdealTemperature data) ∧
    (∀ (data : EnvironmentalData) (t₁ t₂ : ℚ), data.windowOpen = true →
      (data.outdoorTemp > t₁ ↔ data.outdoorTemp > t₂) →
      calculateIdealTemperature { data with indoorTemp := t₁ } =
        calculateIdealTemperature { data with indoorTemp := t₂ }) := by
  constructor
  · intro data t h
    simp [calculateIdealTemperature, preRoundIdeal, h]
  · intro data t₁ t₂ h hiff
    by_cases hc : data.outdoorTemp > t₁
    · have hc₂ : data.outdoorTemp > t₂ := hiff.mp hc
      simp [calculateIdealTemperature, preRoundIdeal, h, hc, hc₂]
    · have hc₂ : ¬ data.outdoorTemp > t₂ := fun hx => hc (hiff.mpr hx)
      simp [calculateIdealTemperature, preRoundIdeal, h, hc, hc₂]

/-- Witness for C10: with the window closed, raising the indoor reading
of the scenario state from 26 to 100 does not change the output; with the
window open, indoor readings 10 and 20 (both below the outdoor 30) give
the same output. -/
theorem indoorTemp_noninterference_witness :
    calculateIdealTemperature { initialEnvironmentalData with indoorTemp := 100 } =
      calculateIdealTemperature initialEnvironmentalData ∧
    calculateIdealTemperature
        { initialEnvironmentalData with windowOpen := true, indoorTemp := 10 } =
      calculateIdealTemperature
        { initialEnvironmentalData with windowOpen := true, indoorTemp := 20 } := by
  constructor
  · exact indoorTemp_noninterference.1 initialEnvironmentalData 100 rfl
  · exact indoorTemp_noninterference.2 { initialEnvironmentalData with windowOpen := true }
      10 20 rfl (by norm_num [initialEnvironmentalData])

/-- C3: the weather mapping is total — each of the eight defined tags
maps to one of the five canonical categories exactly as documented (the
five matching labels pass through unchanged, Partly Cloudy and Windy go
to Cloudy, Stormy goes to Rainy); every defined tag is found by the
lookup, so the unrecognized-tag default is not what produces these
values; and a tag matching no option falls back to Cloudy. -/
theorem weather_mapping_total :
    (mapWeatherCondition "sunny" = "Sunny" ∧
     mapWeatherCondition "cloudy" = "Cloudy" ∧
     mapWeatherCondition "rainy" = "Rainy" ∧
     mapWeatherCondition "snowy" = "Snowy" ∧
     mapWeatherCondition "foggy" = "Foggy" ∧
     mapWeatherCondition "partlyCloudy" = "Cloudy" ∧
     mapWeatherCondition "windy" = "Cloudy" ∧
     mapWeatherCondition "stormy" = "Rainy") ∧
    (∀ opt ∈ weatherOptions,
      (weatherOptions.find? (fun o => o.value == opt.value)).isSome = true) ∧
    (∀ tag : String, (∀ opt ∈ weatherOptions, opt.value ≠ tag) →
      mapWeatherCondition tag = "Cloudy") := by
  refine ⟨by decide, by decide, ?_⟩
  intro tag h
  have hfind : weatherOptions.find? (fun opt => opt.value == tag) = none := by
    apply List.find?_eq_none.mpr
    intro o ho
    simpa using h o ho
  simp [mapWeatherCondition, hfind]

/-- Witness for C3: the lookup succeeds for the concrete tag `sunny`,
and the concrete undefined tag `hail` falls back to Cloudy. -/
theorem weather_mapping_total_witness :
    (weatherOptions.find?
      (fun o => o.value == (SelectOption.mk "sunny" "Sunny").value)).isSome = true ∧
    mapWeatherCondition "hail" = "Cloudy" := by
  constructor
  · exact weather_mapping_total.2.1 (SelectOption.mk "sunny" "Sunny") (by decide)
  · exact weather_mapping_total.2.2 "hail" (by decide)

/-- C8: the time-of-day mapping takes the first word of the label found
in `timeOptions` (before the parenthesised range) and each of the four
defined tags maps 1:1 onto its canonical category; the first word of
every defined option's label already lies in the canonical set, so the
default is not triggered for them; and a tag matching no option falls
back to Afternoon. -/
theorem time_mapping_total :
    (mapTimeOfDay "morning" = "Morning" ∧
     mapTimeOfDay "afternoon" = "Afternoon" ∧
     mapTimeOfDay "evening" = "Evening" ∧
     mapTimeOfDay "night" = "Night") ∧
    (∀ opt ∈ timeOptions,
      splitFirst opt.label ∈ ["Morning", "Afternoon", "Evening", "Night"]) ∧
    (∀ tag : String, (∀ opt ∈ timeOptions, opt.value ≠ tag) →
      mapTimeOfDay tag = "Afternoon") := by
  refine ⟨by decide, by decide, ?_⟩
  intro tag h
  have hfind : timeOptions.find? (fun opt => opt.value == tag) = none := by
    apply List.find?_eq_none.mpr
    intro o ho
    simpa using h o ho
  simp [mapTimeOfDay, hfind]

/-- Witness for C8: the first word of the concrete label of the
`morning` option is in the canonical set, and the concrete undefined tag
`noon` falls back to Afternoon. -/
theorem time_mapping_total_witness :
    splitFirst (SelectOption.mk "morning" "Morning (6AM-12PM)").label ∈
      ["Morning", "Afternoon", "Evening", "Night"] ∧
    mapTimeOfDay "noon" = "Afternoon" := by
  constructor
  · exact time_mapping_total.2.1 (SelectOption.mk "morning" "Morning (6AM-12PM)") (by decide)
  · exact time_mapping_total.2.2 "noon" (by decide)

/-- Counterexample to C4 as stated: a success transport status (ok,
status 200) whose body fails to parse makes `response.json()` reject
with a `SyntaxError` — an `Error` instance carrying the parser's own
message — and the catch block rethrows any `Error` instance as is, so
the surfaced message is the parser's message, not the single generic
unknown-error message. -/
theorem parse_error_generic_counterexample :
    getIdealTemperaturePrediction
        (FetchOutcome.response true 200
          (Except.error (parseFailure "Unexpected token < in JSON at position 0"))) =
      Except.error "Unexpected token < in JSON at position 0" ∧
    getIdealTemperaturePrediction
        (FetchOutcome.response true 200
          (Except.error (parseFailure "Unexpected token < in JSON at position 0"))) ≠
      Except.error unknownErrorMessage := by
  constructor
  · rfl
  · simp [getIdealTemperaturePrediction, parseFailure, unknownErrorMessage]

/-- C4 amended: on a success transport status with a non-parseable body
the client does not crash — the thrown parse failure is caught and
surfaced as an error message — but that message is the parse error's own
message (a `SyntaxError` is an `Error` instance and is rethrown
verbatim); the single generic unknown-error message is surfaced exactly
when the value thrown inside the call was not an `Error` instance. -/
theorem parse_error_amended :
    (∀ (status : Nat) (message : String),
      getIdealTemperaturePrediction
          (FetchOutcome.response true status (Except.error (parseFailure message))) =
        Except.error message) ∧
    (∀ (ok : Bool) (status : Nat),
      getIdealTemperaturePrediction
          (FetchOutcome.response ok status (Except.error Thrown.other)) =
        Except.error unknownErrorMessage) ∧
    getIdealTemperaturePrediction (FetchOutcome.reject Thrown.other) =
      Except.error unknownErrorMessage := by
  refine ⟨fun status message => rfl, fun ok status => ?_, rfl⟩
  cases ok <;> rfl

/-- C5: on a non-success status whose structured error body carries a
non-empty message, the client fails with exactly that message, verbatim
(in particular status 400 with body error `invalid payload` surfaces
`invalid payload`); when the body's `error` field is absent the client
fails with the generic message carrying the status code. -/
theorem server_error_verbatim :
    (∀ (status : Nat) (errorData : ParsedJson) (message : String),
      errorData.error = some message → message ≠ "" →
      getIdealTemperaturePrediction
          (FetchOutcome.response false status (Except.ok errorData)) =
        Except.error message) ∧
    getIdealTemperaturePrediction
        (FetchOutcome.response false 400
          (Except.ok { error := some "invalid payload", predicted_ideal_temperature := none })) =
      Except.error "invalid payload" ∧
    (∀ (status : Nat) (errorData : ParsedJson),
      errorData.error = none →
      getIdealTemperaturePrediction
          (FetchOutcome.response false status (Except.ok errorData)) =
        Except.error ("API request failed with status " ++ toString status)) := by
  refine ⟨?_, rfl, ?_⟩
  · intro status errorData message hm hne
    simp [getIdealTemperaturePrediction, jsOrElse, hm, hne]
  · intro status errorData hm
    simp [getIdealTemperaturePrediction, jsOrElse, hm]

/-- Witness for C5: the scenario-2 response (status 400, body error
`invalid payload`) surfaces `invalid payload`, and a status-503 response
with no `error` field surfaces the generic status-carrying message. -/
theorem server_error_verbatim_witness :
    getIdealTemperaturePrediction
        (FetchOutcome.response false 400
          (Except.ok { error := some "invalid payload", predicted_ideal_temperature := none })) =
      Except.error "invalid payload" ∧
    getIdealTemperaturePrediction
        (FetchOutcome.response false 503
          (Except.ok { error := none, predicted_ideal_temperature := none })) =
      Except.error ("API request failed with status " ++ toString 503) := by
  constructor
  · exact server_error_verbatim.1 400
      { error := some "invalid payload", predicted_ideal_temperature := none }
      "invalid payload" rfl (by decide)
  · exact server_error_verbatim.2.2 503
      { error := none, predicted_ideal_temperature := none } rfl
